import Mathlib

/-!
Verification of the MetaKeyAI python daemon (src/python_scripts/metakeyai_daemon.py)
against its natural-language specification.

The daemon's spell loader, cast endpoint and discovery scan are embedded as
state-passing Lean functions over an explicit `DaemonState`: the filesystem is a
finite map from paths to script semantics, `sys.modules` is the module cache,
`sys.stdin`/`sys.stdout` are stream handles into a table of StringIO buffer
contents, and an execution log records every run of some script's top-level
code (the observable "module-level side effects").  Python exceptions are
modeled as `Except`/`Option` error values; a caught exception carries the
`str(e)` message the code puts into its failure result.
-/

set_option autoImplicit false

namespace MetaKeyAI

/-- A filesystem path.  Paths in the model are taken to be already absolute and
canonical, so pathlib's `Path(...).resolve()` is the identity on them. -/
abbrev FsPath := String

/-- Path(script_file).resolve(): the identity, because model paths are already
canonical (see `FsPath`). -/
def resolvePath (p : FsPath) : FsPath := p

/-- Python's `hash()` on strings is interpreter-specific; the daemon only feeds
`abs(hash(str(script_path)))` into a cache-key string, so it is modeled by a
fixed executable string hash.  The claims depend only on it being a pure
function of the path. -/
def pyHash (s : String) : Nat :=
  s.data.foldl (fun a c => (a * 31 + c.toNat) % 2 ^ 61) 7

/-- The final component of a path: the characters after the last slash. -/
def lastComponent (cs : List Char) : List Char :=
  cs.foldl (fun acc c => if c = '/' then [] else acc ++ [c]) []

/-- Drop the last dot-extension of a file name, keeping the whole name when
there is no dot or when the only dot starts the name (pathlib stem rules). -/
def stripLastExt (cs : List Char) : List Char :=
  match cs.reverse.dropWhile (fun c => c != '.') with
  | [] => cs
  | _ :: rest => if rest.isEmpty then cs else rest.reverse

/-- pathlib `Path(p).stem`: final path component without its last extension. -/
def stemOf (p : FsPath) : String :=
  ⟨stripLastExt (lastComponent p.data)⟩

/-- Line 77: `module_name = f"metakeyai_spell_{script_path.stem}_{abs(hash(str(script_path)))}"`. -/
def moduleName (script_path : FsPath) : String :=
  "metakeyai_spell_" ++ stemOf script_path ++ "_" ++ toString (pyHash script_path)

/-- Dict update `d[k] = v` (also: opening a file for writing truncates and
rewrites it): lookup afterwards finds the new value and any old entry for the
key is gone. -/
def assocSet {κ α : Type} [BEq κ] (l : List (κ × α)) (k : κ) (v : α) :
    List (κ × α) :=
  (k, v) :: l.filter (fun q => q.1 != k)

/-- Writing a string to a StringIO handle appends it to that buffer's contents
(a handle that was never created reads as empty). -/
def writeStream (streams : List (Nat × String)) (h : Nat) (s : String) :
    List (Nat × String) :=
  assocSet streams h (((streams.lookup h).getD "") ++ s)

/-- The observable content of an executed spell module object: its optional
`main` entry callable (which may itself raise, modeled by an error message) and
its optional `META` metadata record.  META values are modeled as strings; a
non-dict META is out of model.  The `dspy` handle injected at line 89 is not
observable by any claim and is not modeled. -/
structure SpellModule where
  main : Option (String → Except String String)
  META : Option (List (String × String))

/-- A spell script file, given by its execution semantics:

* `topLevel` — executing the script's top-level code in a fresh namespace, as
  `spec.loader.exec_module` does (line 92): the module object populated as far
  as execution got, together with `some msg` when the top-level code raised;
* `topPrints` — what the top-level code writes to the current standard output
  while executing;
* `body` — running the whole script with `INPUT_TEXT` bound, as
  `runpy.run_path(script_to_run, init_globals=ns)` does in the fallback branch
  (line 255): what it prints, and `some msg` when it raised.

Scripts are modeled as pure with respect to the daemon state apart from these
declared effects. -/
structure Script where
  topLevel : SpellModule × Option String
  topPrints : String
  body : String → String × Option String

/-- The daemon's process state: the filesystem (existing files with their
script semantics), the `sys.modules` spell cache, the current
`sys.stdin`/`sys.stdout` stream handles together with the contents of every
StringIO buffer, a fresh-handle allocator, a counter standing in for
`uuid.uuid4()` in temp-file names, the `SPELL_REGISTRY`, and a log recording
each execution of some script's top-level code. -/
structure DaemonState where
  fs : List (FsPath × Script)
  sysModules : List (String × SpellModule)
  stdin : Nat
  stdout : Nat
  streams : List (Nat × String)
  nextHandle : Nat
  tempCounter : Nat
  registry : List (String × List (String × String))
  execLog : List FsPath

/-- Errors `load_spell_module` raises: `FileNotFoundError` for a missing path
(line 75), or the exception propagating out of the script's top-level code
(line 92).  The `ImportError` of line 84 cannot occur in the model because
`spec_from_file_location` succeeds on every existing file. -/
inductive LoadErr where
  | notFound (path : FsPath)
  | loadError (msg : String)
deriving DecidableEq

/-- The `str(e)` of a load failure: the `FileNotFoundError` of line 75 carries
`f"spell script not found: {script_path}"`; a top-level exception carries its
own message. -/
def LoadErr.message : LoadErr → String
  | .notFound p => "spell script not found: " ++ p
  | .loadError m => m

/-- Lines 71–93, `load_spell_module`: resolve the path, raise
`FileNotFoundError` when it does not exist, return the unit cached in
`sys.modules` under the derived module name when present, and otherwise
execute the script's top-level code.  The code stores the module object in
`sys.modules` (line 91) *before* `exec_module` (line 92) and the module object
is mutated in place, so the module — populated as far as execution got — stays
cached even when the top-level code raises; the model reproduces that net
effect.  Top-level prints go to the current `sys.stdout`. -/
def load_spell_module (st : DaemonState) (script_file : String) :
    Except LoadErr SpellModule × DaemonState :=
  let script_path := resolvePath script_file
  match st.fs.lookup script_path with
  | none => (.error (.notFound script_path), st)
  | some script =>
    let module_name := moduleName script_path
    match st.sysModules.lookup module_name with
    | some m => (.ok m, st)
    | none =>
      let module := script.topLevel.1
      let st' : DaemonState :=
        { st with
          sysModules := (module_name, module) :: st.sysModules,
          streams := writeStream st.streams st.stdout script.topPrints,
          execLog := st.execLog ++ [script_path] }
      match script.topLevel.2 with
      | some msg => (.error (.loadError msg), st')
      | none => (.ok module, st')

/-- The `/cast` request body (lines 216–221).  An inline script is modeled by
its `Script` semantics; Python treats an empty inline string as falsy at line
230, which coincides with `none` here.  A JSON-null input behaves like the
default `""` in the truthiness guard of line 244 and is not distinguished. -/
structure SpellCastRequest where
  spellId : String
  scriptFile : Option FsPath := none
  script : Option Script := none
  input : String := ""

/-- The JSON object `cast_spell` returns on the normal (non-HTTPException)
path (lines 271–277).  Wall-clock `executionTime` is outside the model and
fixed at 0. -/
structure CastResponse where
  spellId : String
  success : Bool
  output : String
  executionTime : Nat
  error : Option String

/-- Line 231: `Path(tempfile.gettempdir()) / f"metakeyai_temp_spell_{uuid.uuid4()}.py"`,
with the uuid's freshness modeled by a per-process counter. -/
def tempPath (n : Nat) : FsPath :=
  "/tmp/metakeyai_temp_spell_" ++ toString n ++ ".py"

/-- Lines 249–263, the body of `cast_spell`'s inner try/except: load the
module; when it has a `main` attribute, call it on the input and take its
return value; otherwise re-run the script file via `runpy.run_path` with
`INPUT_TEXT` bound (prints land on the current `sys.stdout`, which `cast_spell`
pointed at the `captured` StringIO buffer) and take the captured buffer's
contents.  Any exception is caught by the except branch, which shapes the
triple as `("", false, some str(e))`.  The `none` filesystem branch under
`runpy` is the caught `FileNotFoundError` runpy would raise on a vanished
file; it is unreachable while nothing deletes files between the load and the
re-run. -/
def runCast (st : DaemonState) (script_to_run : FsPath) (input_text : String)
    (captured : Nat) : (String × Bool × Option String) × DaemonState :=
  match load_spell_module st script_to_run with
  | (.error e, st') => (("", false, some e.message), st')
  | (.ok mod, st') =>
    match mod.main with
    | some f =>
      match f input_text with
      | .ok r => ((r, true, none), st')
      | .error msg => (("", false, some msg), st')
    | none =>
      match st'.fs.lookup (resolvePath script_to_run) with
      | none =>
        (("", false, some ("spell script not found: " ++ resolvePath script_to_run)), st')
      | some sc =>
        let st'' : DaemonState :=
          { st' with streams := writeStream st'.streams st'.stdout (sc.body input_text).1 }
        match (sc.body input_text).2 with
        | some msg => (("", false, some msg), st'')
        | none => (((st''.streams.lookup captured).getD "", true, none), st'')

/-- Lines 239–277: save the original streams, redirect `sys.stdin` to a
StringIO over the input when the input is truthy (line 244) and `sys.stdout`
to a fresh captured StringIO (line 247), run the try/except body, then the
`finally` (lines 264–269): restore both streams and `os.remove` the temp file
when one was created; finally build the response dict. -/
def castExecute (st1 : DaemonState) (sid : String) (script_to_run : FsPath)
    (temp_file_path : Option FsPath) (input_text : String) :
    CastResponse × DaemonState :=
  let original_stdin := st1.stdin
  let original_stdout := st1.stdout
  let st2 :=
    if input_text ≠ "" then
      { st1 with
        stdin := st1.nextHandle,
        streams := assocSet st1.streams st1.nextHandle input_text,
        nextHandle := st1.nextHandle + 1 }
    else st1
  let captured := st2.nextHandle
  let st3 : DaemonState :=
    { st2 with
      stdout := captured,
      streams := assocSet st2.streams captured "",
      nextHandle := st2.nextHandle + 1 }
  let r := runCast st3 script_to_run input_text captured
  let st5 : DaemonState := { r.2 with stdin := original_stdin, stdout := original_stdout }
  let st6 : DaemonState :=
    match temp_file_path with
    | some tp => { st5 with fs := st5.fs.filter (fun q => q.1 != tp) }
    | none => st5
  ({ spellId := sid, success := r.1.2.1, output := r.1.1,
     executionTime := 0, error := r.1.2.2 }, st6)

/-- Lines 223–280, `cast_spell`: when inline script content is provided, write
it to a fresh temp file and run that; otherwise run the named script file.
`if not script_to_run` (line 236) raises the ValueError that the outer except
converts into `HTTPException(500, str(e))`, modeled by the `Except.error`
carrying the detail string; it fires when neither field is provided and when
`scriptFile` is the empty (falsy) string.  A temp path produced by `str(...)`
is never empty, so the inline branch always proceeds to the execute phase. -/
def cast_spell (st : DaemonState) (payload : SpellCastRequest) :
    Except String CastResponse × DaemonState :=
  match payload.script with
  | some sc =>
    let tp := tempPath st.tempCounter
    let st1 : DaemonState :=
      { st with fs := assocSet st.fs tp sc, tempCounter := st.tempCounter + 1 }
    let r := castExecute st1 payload.spellId tp (some tp) payload.input
    (.ok r.1, r.2)
  | none =>
    match payload.scriptFile with
    | none =>
      (.error ("No scriptFile or script content provided for spell " ++ payload.spellId), st)
    | some sp =>
      if sp = "" then
        (.error ("No scriptFile or script content provided for spell " ++ payload.spellId), st)
      else
        let r := castExecute st payload.spellId sp none payload.input
        (.ok r.1, r.2)

/-- Lines 141–150, one iteration of `_discover_spells`'s loop: skip
`__init__`, load the file (a load failure is logged to stderr and skipped,
keeping whatever the failed load left in `sys.modules`), read
`getattr(mod, "META", {})`, and when `"id" in meta` register
`{**meta, "scriptFile": str(py_file)}` in `SPELL_REGISTRY` under `meta["id"]`. -/
def processSpellFile (st : DaemonState) (py_file : FsPath) : DaemonState :=
  if stemOf py_file = "__init__" then st
  else
    match load_spell_module st py_file with
    | (.error _, st') => st'
    | (.ok mod, st') =>
      match mod.META with
      | none => st'
      | some meta =>
        match meta.lookup "id" with
        | none => st'
        | some sid =>
          { st' with registry := assocSet st'.registry sid (assocSet meta "scriptFile" py_file) }

/-- Lines 137–150, `_discover_spells`: scan the sorted `*.py` listing of the
spells directory (passed here as `files`; a missing directory is the empty
listing) and process each file in order. -/
def discover_spells (st : DaemonState) (files : List FsPath) : DaemonState :=
  files.foldl processSpellFile st

/-!
## Concurrency model for the redirect/execute/restore section

`cast_spell` is a synchronous (`def`) FastAPI endpoint, so FastAPI serves
concurrent requests on a threadpool, yet the module creates no lock of any
kind.  The section of lines 242–266 mutates the process-global `sys.stdout`;
its atomic actions on that shared cell are modeled below so that the effect of
an unsynchronized interleaving of two requests can be computed.  Handle 0 is
the original stdout; handle `tid` is request `tid`'s captured StringIO buffer. -/

/-- One atomic action of the lines 242–266 critical section on the shared
`sys.stdout` cell: install the request's captured buffer, have the request's
script print its output to whatever `sys.stdout` currently is, or restore the
original stream. -/
inductive StdoutAction where
  | redirect (tid : Nat)
  | emit (tid : Nat) (out : String)
  | restore (tid : Nat)
deriving DecidableEq

/-- The shared standard-output state: which stream `sys.stdout` currently is,
and the contents of every captured buffer. -/
structure StdoutState where
  current : Nat
  buffers : List (Nat × String)
deriving DecidableEq

/-- Effect of one action on the shared stdout state. -/
def stepStdout (s : StdoutState) : StdoutAction → StdoutState
  | .redirect tid => { current := tid, buffers := assocSet s.buffers tid "" }
  | .emit _ out => { s with buffers := writeStream s.buffers s.current out }
  | .restore _ => { s with current := 0 }

/-- Run a schedule of actions from a shared stdout state. -/
def runStdout (s : StdoutState) (acts : List StdoutAction) : StdoutState :=
  acts.foldl stepStdout s

/-- The sequence of shared-stdout actions one `cast_spell` invocation performs
(lines 247, 252/255, 266): redirect to its captured buffer, let the spell
print its output, restore the original stream.  The code takes no lock around
this section. -/
def castSection (tid : Nat) (out : String) : List StdoutAction :=
  [.redirect tid, .emit tid out, .restore tid]

/-- `interleaves xs ys zs`: the schedule `zs` is an interleaving of the two
threads' action sequences `xs` and `ys`. -/
def interleaves : List StdoutAction → List StdoutAction → List StdoutAction → Bool
  | [], [], [] => true
  | _, _, [] => false
  | xs, ys, a :: zs =>
    (match xs with
     | x :: xs' => x == a && interleaves xs' ys zs
     | [] => false)
    ||
    (match ys with
     | y :: ys' => y == a && interleaves xs ys' zs
     | [] => false)

/-!
## Helper lemmas
-/

theorem runCast_shape (st : DaemonState) (p : FsPath) (input_text : String)
    (captured : Nat) :
    ((runCast st p input_text captured).1.2.1 = true ↔
      (runCast st p input_text captured).1.2.2 = none) ∧
    ((runCast st p input_text captured).1.2.1 = false →
      (runCast st p input_text captured).1.1 = "") := by
  unfold runCast
  dsimp only
  split
  · simp
  · split
    · split <;> simp
    · split
      · simp
      · split <;> simp

theorem castExecute_shape (st1 : DaemonState) (sid : String) (sp : FsPath)
    (tfp : Option FsPath) (input_text : String) :
    (((castExecute st1 sid sp tfp input_text).1).success = true ↔
      ((castExecute st1 sid sp tfp input_text).1).error = none) ∧
    (((castExecute st1 sid sp tfp input_text).1).success = false →
      ((castExecute st1 sid sp tfp input_text).1).output = "") := by
  unfold castExecute
  dsimp only
  exact runCast_shape _ _ _ _

theorem lookup_assocSet_self {κ α : Type} [BEq κ] [LawfulBEq κ]
    (l : List (κ × α)) (k : κ) (v : α) : (assocSet l k v).lookup k = some v := by
  simp [assocSet, List.lookup]

theorem lookup_filter_ne {κ α : Type} [BEq κ] [LawfulBEq κ]
    (l : List (κ × α)) (k : κ) :
    (l.filter (fun q => q.1 != k)).lookup k = none := by
  induction l with
  | nil => rfl
  | cons p l ih =>
    rw [List.filter_cons]
    by_cases h : p.1 = k
    · simp [h, ih]
    · have hb : (p.1 != k) = true := bne_iff_ne.mpr h
      rw [if_pos hb]
      obtain ⟨a, b⟩ := p
      simp only [List.lookup]
      rw [beq_false_of_ne (Ne.symm h)]
      exact ih

theorem load_preserves_fs (st : DaemonState) (p : String) :
    ((load_spell_module st p).2).fs = st.fs := by
  unfold load_spell_module
  dsimp only
  split
  · rfl
  · split
    · rfl
    · split <;> rfl

theorem load_preserves_registry (st : DaemonState) (p : String) :
    ((load_spell_module st p).2).registry = st.registry := by
  unfold load_spell_module
  dsimp only
  split
  · rfl
  · split
    · rfl
    · split <;> rfl

/-!
## C3 — streams restored on every exit path
-/

theorem castExecute_restores (st1 : DaemonState) (sid : String) (sp : FsPath)
    (tfp : Option FsPath) (input_text : String) :
    ((castExecute st1 sid sp tfp input_text).2).stdin = st1.stdin ∧
    ((castExecute st1 sid sp tfp input_text).2).stdout = st1.stdout := by
  unfold castExecute
  cases tfp <;> simp

/-- C3: for every invocation via cast_spell, the process's original
standard-input and standard-output streams are restored on every exit path of
the execute phase: after `cast_spell` returns — success, failure result, or
the outer HTTPException — `sys.stdin` and `sys.stdout` equal the values they
held before the invocation. -/
theorem cast_spell_restores_streams (st : DaemonState) (payload : SpellCastRequest) :
    ((cast_spell st payload).2).stdin = st.stdin ∧
    ((cast_spell st payload).2).stdout = st.stdout := by
  obtain ⟨sid, sf, scr, inp⟩ := payload
  cases scr with
  | some sc =>
    simpa [cast_spell] using
      castExecute_restores
        { st with fs := assocSet st.fs (tempPath st.tempCounter) sc,
                  tempCounter := st.tempCounter + 1 }
        sid (tempPath st.tempCounter) (some (tempPath st.tempCounter)) inp
  | none =>
    cases sf with
    | none => exact ⟨rfl, rfl⟩
    | some p =>
      by_cases hp : p = ""
      · simp [cast_spell, hp]
      · simpa [cast_spell, hp] using castExecute_restores st sid p none inp

/-!
## C4 — temp file for inline script content removed on every exit path
-/

theorem castExecute_removes_temp (st1 : DaemonState) (sid : String) (sp : FsPath)
    (tp : FsPath) (input_text : String) :
    ((castExecute st1 sid sp (some tp) input_text).2).fs.lookup tp = none := by
  unfold castExecute
  exact lookup_filter_ne _ _

/-- C4: for every cast request that supplies inline script content, the
temporary script file created for that content (at `tempPath st.tempCounter`)
no longer exists after `cast_spell` returns, on every exit path — success or
failure of the spell's execution. -/
theorem cast_spell_deletes_temp_file (st : DaemonState) (sid : String)
    (sf : Option FsPath) (sc : Script) (inp : String) :
    ((cast_spell st
        { spellId := sid, scriptFile := sf, script := some sc, input := inp }).2).fs.lookup
      (tempPath st.tempCounter) = none := by
  simpa [cast_spell] using
    castExecute_removes_temp
      { st with fs := assocSet st.fs (tempPath st.tempCounter) sc,
                tempCounter := st.tempCounter + 1 }
      sid (tempPath st.tempCounter) (tempPath st.tempCounter) inp

theorem castExecute_of_missing_file (st1 : DaemonState) (sid : String) (sp : FsPath)
    (tfp : Option FsPath) (input_text : String)
    (hfs : st1.fs.lookup (resolvePath sp) = none) :
    (castExecute st1 sid sp tfp input_text).1 =
      { spellId := sid, success := false, output := "", executionTime := 0,
        error := some ("spell script not found: " ++ resolvePath sp) } := by
  by_cases hi : input_text = "" <;>
    simp [castExecute, runCast, load_spell_module, LoadErr.message, hi, hfs]

theorem castExecute_of_topLevel_error (st1 : DaemonState) (sid : String) (sp : FsPath)
    (tfp : Option FsPath) (input_text : String) (sc : Script) (msg : String)
    (hfs : st1.fs.lookup (resolvePath sp) = some sc)
    (hcache : st1.sysModules.lookup (moduleName (resolvePath sp)) = none)
    (herr : sc.topLevel.2 = some msg) :
    (castExecute st1 sid sp tfp input_text).1 =
      { spellId := sid, success := false, output := "", executionTime := 0,
        error := some msg } := by
  by_cases hi : input_text = "" <;>
    simp [castExecute, runCast, load_spell_module, LoadErr.message, hi, hfs, hcache, herr]

theorem castExecute_of_main_ok (st1 : DaemonState) (sid : String) (sp : FsPath)
    (tfp : Option FsPath) (input_text : String) (sc : Script) (mod : SpellModule)
    (f : String → Except String String) (out : String)
    (hfs : st1.fs.lookup (resolvePath sp) = some sc)
    (hcache : st1.sysModules.lookup (moduleName (resolvePath sp)) = some mod)
    (hmain : mod.main = some f) (hf : f input_text = .ok out) :
    (castExecute st1 sid sp tfp input_text).1 =
      { spellId := sid, success := true, output := out, executionTime := 0,
        error := none } := by
  by_cases hi : input_text = ""
  · subst hi
    simp [castExecute, runCast, load_spell_module, hfs, hcache, hmain, hf]
  · simp [castExecute, runCast, load_spell_module, hi, hfs, hcache, hmain, hf]

theorem castExecute_of_main_error (st1 : DaemonState) (sid : String) (sp : FsPath)
    (tfp : Option FsPath) (input_text : String) (sc : Script) (mod : SpellModule)
    (f : String → Except String String) (msg : String)
    (hfs : st1.fs.lookup (resolvePath sp) = some sc)
    (hcache : st1.sysModules.lookup (moduleName (resolvePath sp)) = some mod)
    (hmain : mod.main = some f) (hf : f input_text = .error msg) :
    (castExecute st1 sid sp tfp input_text).1 =
      { spellId := sid, success := false, output := "", executionTime := 0,
        error := some msg } := by
  by_cases hi : input_text = ""
  · subst hi
    simp [castExecute, runCast, load_spell_module, hfs, hcache, hmain, hf]
  · simp [castExecute, runCast, load_spell_module, hi, hfs, hcache, hmain, hf]

theorem castExecute_of_fallback_ok (st1 : DaemonState) (sid : String) (sp : FsPath)
    (tfp : Option FsPath) (input_text : String) (sc : Script) (mod : SpellModule)
    (printed : String)
    (hfs : st1.fs.lookup (resolvePath sp) = some sc)
    (hcache : st1.sysModules.lookup (moduleName (resolvePath sp)) = some mod)
    (hmain : mod.main = none) (hbody : sc.body input_text = (printed, none)) :
    (castExecute st1 sid sp tfp input_text).1 =
      { spellId := sid, success := true, output := printed, executionTime := 0,
        error := none } := by
  by_cases hi : input_text = ""
  · subst hi
    simp [castExecute, runCast, load_spell_module, writeStream, hfs, hcache,
      hmain, hbody, lookup_assocSet_self]
  · simp [castExecute, runCast, load_spell_module, writeStream, hi, hfs, hcache,
      hmain, hbody, lookup_assocSet_self]

theorem castExecute_of_fallback_error (st1 : DaemonState) (sid : String) (sp : FsPath)
    (tfp : Option FsPath) (input_text : String) (sc : Script) (mod : SpellModule)
    (msg : String)
    (hfs : st1.fs.lookup (resolvePath sp) = some sc)
    (hcache : st1.sysModules.lookup (moduleName (resolvePath sp)) = some mod)
    (hmain : mod.main = none) (hbody : (sc.body input_text).2 = some msg) :
    (castExecute st1 sid sp tfp input_text).1 =
      { spellId := sid, success := false, output := "", executionTime := 0,
        error := some msg } := by
  by_cases hi : input_text = ""
  · subst hi
    simp [castExecute, runCast, load_spell_module, hfs, hcache, hmain, hbody]
  · simp [castExecute, runCast, load_spell_module, hi, hfs, hcache, hmain, hbody]

theorem cast_spell_scriptFile_reduces (st : DaemonState) (sid p input : String)
    (hp : p ≠ "") :
    cast_spell st { spellId := sid, scriptFile := some p, input := input } =
      (.ok (castExecute st sid p none input).1,
        (castExecute st sid p none input).2) := by
  simp [cast_spell, hp]

theorem cast_spell_inline_reduces (st : DaemonState) (sid : String)
    (sf : Option FsPath) (sc : Script) (input : String) :
    cast_spell st { spellId := sid, scriptFile := sf, script := some sc, input := input } =
      (.ok (castExecute
              { st with fs := assocSet st.fs (tempPath st.tempCounter) sc,
                        tempCounter := st.tempCounter + 1 }
              sid (tempPath st.tempCounter) (some (tempPath st.tempCounter)) input).1,
        (castExecute
              { st with fs := assocSet st.fs (tempPath st.tempCounter) sc,
                        tempCounter := st.tempCounter + 1 }
              sid (tempPath st.tempCounter) (some (tempPath st.tempCounter)) input).2) := rfl

/-!
## C2 — all execution-phase exceptions are caught and become failure results
-/

/-- C2: for every cast request that names a script to run, any exception
raised during spell loading (missing file or raising top-level code), by the
entry callable, or by fallback script execution — including for inline script
content — is caught inside `cast_spell` and converted into a normal `.ok`
failure response carrying the exception's message string; it does not
propagate to the caller (no HTTPException, no crash). -/
theorem cast_spell_catches_exec_errors (st : DaemonState) (sid p input : String)
    (sf : Option FsPath) (hp : p ≠ "") :
    (st.fs.lookup (resolvePath p) = none →
      (cast_spell st { spellId := sid, scriptFile := some p, input := input }).1 =
        .ok { spellId := sid, success := false, output := "", executionTime := 0,
              error := some ("spell script not found: " ++ resolvePath p) }) ∧
    (∀ sc msg, st.fs.lookup (resolvePath p) = some sc →
      st.sysModules.lookup (moduleName (resolvePath p)) = none →
      sc.topLevel.2 = some msg →
      (cast_spell st { spellId := sid, scriptFile := some p, input := input }).1 =
        .ok { spellId := sid, success := false, output := "", executionTime := 0,
              error := some msg }) ∧
    (∀ sc mod f msg, st.fs.lookup (resolvePath p) = some sc →
      st.sysModules.lookup (moduleName (resolvePath p)) = some mod →
      mod.main = some f → f input = .error msg →
      (cast_spell st { spellId := sid, scriptFile := some p, input := input }).1 =
        .ok { spellId := sid, success := false, output := "", executionTime := 0,
              error := some msg }) ∧
    (∀ sc mod msg, st.fs.lookup (resolvePath p) = some sc →
      st.sysModules.lookup (moduleName (resolvePath p)) = some mod →
      mod.main = none → (sc.body input).2 = some msg →
      (cast_spell st { spellId := sid, scriptFile := some p, input := input }).1 =
        .ok { spellId := sid, success := false, output := "", executionTime := 0,
              error := some msg }) ∧
    (∀ sc msg, sc.topLevel.2 = some msg →
      st.sysModules.lookup (moduleName (resolvePath (tempPath st.tempCounter))) = none →
      (cast_spell st { spellId := sid, scriptFile := sf, script := some sc, input := input }).1 =
        .ok { spellId := sid, success := false, output := "", executionTime := 0,
              error := some msg }) := by
  refine ⟨?_, ?_, ?_, ?_, ?_⟩
  · intro hfs
    rw [cast_spell_scriptFile_reduces st sid p input hp]
    rw [castExecute_of_missing_file st sid p none input hfs]
  · intro sc msg hfs hcache herr
    rw [cast_spell_scriptFile_reduces st sid p input hp]
    rw [castExecute_of_topLevel_error st sid p none input sc msg hfs hcache herr]
  · intro sc mod f msg hfs hcache hmain hf
    rw [cast_spell_scriptFile_reduces st sid p input hp]
    rw [castExecute_of_main_error st sid p none input sc mod f msg hfs hcache hmain hf]
  · intro sc mod msg hfs hcache hmain hbody
    rw [cast_spell_scriptFile_reduces st sid p input hp]
    rw [castExecute_of_fallback_error st sid p none input sc mod msg hfs hcache hmain hbody]
  · intro sc msg herr hcache
    rw [cast_spell_inline_reduces st sid sf sc input]
    rw [castExecute_of_topLevel_error
      { st with fs := assocSet st.fs (tempPath st.tempCounter) sc,
                tempCounter := st.tempCounter + 1 }
      sid (tempPath st.tempCounter) (some (tempPath st.tempCounter)) input sc msg
      (lookup_assocSet_self st.fs (tempPath st.tempCounter) sc) hcache herr]

def stC2 : DaemonState :=
  { fs := [], sysModules := [], stdin := 0, stdout := 1, streams := [],
    nextHandle := 2, tempCounter := 0, registry := [], execLog := [] }

/-- C2 witness: a concrete cast naming a missing script returns the normal
failure response carrying the FileNotFoundError message. -/
theorem cast_spell_catches_exec_errors_witness :
    (cast_spell stC2 { spellId := "w", scriptFile := some "/spells/gone.py", input := "x" }).1 =
      .ok { spellId := "w", success := false, output := "", executionTime := 0,
            error := some ("spell script not found: " ++ "/spells/gone.py") } :=
  (cast_spell_catches_exec_errors stC2 "w" "/spells/gone.py" "x" none (by decide)).1 rfl

/-!
## C5 — invocation dispatch: entry callable, else captured fallback output
-/

/-- C5: for every loaded unit and input text, if the unit exposes the `main`
entry callable then the invocation output is that callable's return value on
the input text; otherwise the script body is executed afresh with the input
text bound and standard output redirected into the captured buffer, and the
buffer's contents become the output. -/
theorem cast_spell_dispatch (st : DaemonState) (sid p input : String) (hp : p ≠ "")
    (sc : Script) (mod : SpellModule)
    (hfs : st.fs.lookup (resolvePath p) = some sc)
    (hcache : st.sysModules.lookup (moduleName (resolvePath p)) = some mod) :
    (∀ f out, mod.main = some f → f input = .ok out →
      (cast_spell st { spellId := sid, scriptFile := some p, input := input }).1 =
        .ok { spellId := sid, success := true, output := out, executionTime := 0,
              error := none }) ∧
    (∀ printed, mod.main = none → sc.body input = (printed, none) →
      (cast_spell st { spellId := sid, scriptFile := some p, input := input }).1 =
        .ok { spellId := sid, success := true, output := printed, executionTime := 0,
              error := none }) := by
  constructor
  · intro f out hmain hf
    rw [cast_spell_scriptFile_reduces st sid p input hp]
    rw [castExecute_of_main_ok st sid p none input sc mod f out hfs hcache hmain hf]
  · intro printed hmain hbody
    rw [cast_spell_scriptFile_reduces st sid p input hp]
    rw [castExecute_of_fallback_ok st sid p none input sc mod printed hfs hcache hmain hbody]

def upperModule : SpellModule :=
  { main := some (fun s => .ok ⟨s.data.map Char.toUpper⟩), META := none }

def upperScript : Script :=
  { topLevel := (upperModule, none), topPrints := "", body := fun _ => ("", none) }

def echoModule : SpellModule := { main := none, META := none }

def echoScript : Script :=
  { topLevel := (echoModule, none), topPrints := "", body := fun s => (s ++ "\n", none) }

def stC5 : DaemonState :=
  { fs := [("/spells/upper.py", upperScript), ("/spells/echo.py", echoScript)],
    sysModules := [(moduleName "/spells/upper.py", upperModule),
                   (moduleName "/spells/echo.py", echoModule)],
    stdin := 0, stdout := 1, streams := [], nextHandle := 2, tempCounter := 0,
    registry := [], execLog := [] }

/-- C5 witness: an upper-casing entry callable on "abc" yields output "ABC";
a no-entry script whose body prints the input yields output "hi\n" on "hi". -/
theorem cast_spell_dispatch_witness :
    (cast_spell stC5 { spellId := "u", scriptFile := some "/spells/upper.py", input := "abc" }).1 =
      .ok { spellId := "u", success := true, output := "ABC", executionTime := 0,
            error := none } ∧
    (cast_spell stC5 { spellId := "e", scriptFile := some "/spells/echo.py", input := "hi" }).1 =
      .ok { spellId := "e", success := true, output := "hi\n", executionTime := 0,
            error := none } :=
  ⟨(cast_spell_dispatch stC5 "u" "/spells/upper.py" "abc" (by decide)
      upperScript upperModule rfl rfl).1
        (fun s => .ok ⟨s.data.map Char.toUpper⟩) "ABC" rfl rfl,
   (cast_spell_dispatch stC5 "e" "/spells/echo.py" "hi" (by decide)
      echoScript echoModule rfl rfl).2 "hi\n" rfl rfl⟩

/-!
## C9 — response-shape invariant of cast_spell
-/

/-- C9: for every cast request that yields a normal (non-HTTP-error) response,
the response's success field is true if and only if its error field is null,
and whenever success is false the output field is the empty string. -/
theorem cast_spell_response_shape (st : DaemonState) (payload : SpellCastRequest)
    (resp : CastResponse) (h : (cast_spell st payload).1 = .ok resp) :
    (resp.success = true ↔ resp.error = none) ∧
    (resp.success = false → resp.output = "") := by
  obtain ⟨sid, sf, scr, inp⟩ := payload
  cases scr with
  | some sc =>
    simp only [cast_spell, Except.ok.injEq] at h
    rw [← h]
    exact castExecute_shape _ _ _ _ _
  | none =>
    cases sf with
    | none => simp [cast_spell] at h
    | some p =>
      by_cases hp : p = ""
      · simp [cast_spell, hp] at h
      · simp only [cast_spell, hp, if_false, Except.ok.injEq] at h
        rw [← h]
        exact castExecute_shape _ _ _ _ _

def stC9 : DaemonState :=
  { fs := [], sysModules := [], stdin := 0, stdout := 1, streams := [],
    nextHandle := 2, tempCounter := 0, registry := [], execLog := [] }

def respC9 : CastResponse :=
  { spellId := "s", success := false, output := "", executionTime := 0,
    error := some ("spell script not found: /spells/missing.py") }

/-- C9 witness: a concrete cast of a missing script yields a normal response
whose shape satisfies the invariant. -/
theorem cast_spell_response_shape_witness :
    (respC9.success = true ↔ respC9.error = none) ∧
    (respC9.success = false → respC9.output = "") :=
  cast_spell_response_shape stC9
    { spellId := "s", scriptFile := some "/spells/missing.py", input := "" } respC9 rfl

/-!
## C1 — loading is cache-idempotent
-/

theorem load_notFound_of_missing (st : DaemonState) (p : String)
    (h : st.fs.lookup (resolvePath p) = none) :
    load_spell_module st p = (.error (.notFound (resolvePath p)), st) := by
  unfold load_spell_module
  dsimp only
  rw [h]

/-- C1: loading a spell script is cache-idempotent.  After one call to
`load_spell_module` has succeeded — returning unit `m` and leaving state
`st'` — a further call with the same path returns the very same unit `m` and
the very same state `st'`: in particular the execution log is unchanged, so
the script's top-level code is not executed again and module-level side
effects run at most once per process, and the `sys.modules` cache is
unchanged, so at most one loaded unit exists per resolved path. -/
theorem load_spell_module_cache_idempotent (st st' : DaemonState) (p : String)
    (m : SpellModule) (h : load_spell_module st p = (.ok m, st')) :
    load_spell_module st' p = (.ok m, st') := by
  unfold load_spell_module at h ⊢
  dsimp only at h ⊢
  cases hfs : st.fs.lookup (resolvePath p) with
  | none =>
    rw [hfs] at h
    dsimp only at h
    injection h with h1 h2
    injection h1
  | some script =>
    rw [hfs] at h
    dsimp only at h
    cases hcache : st.sysModules.lookup (moduleName (resolvePath p)) with
    | some m0 =>
      rw [hcache] at h
      dsimp only at h
      injection h with h1 h2
      injection h1 with hm
      subst hm
      subst h2
      rw [hfs]
      dsimp only
      rw [hcache]
    | none =>
      rw [hcache] at h
      dsimp only at h
      cases herr : script.topLevel.2 with
      | some msg =>
        rw [herr] at h
        dsimp only at h
        injection h with h1 h2
        injection h1
      | none =>
        rw [herr] at h
        dsimp only at h
        injection h with h1 h2
        injection h1 with hm
        subst hm
        subst h2
        dsimp only
        rw [hfs]
        dsimp only
        simp [List.lookup]

def modC1 : SpellModule := { main := none, META := none }

def scriptC1 : Script :=
  { topLevel := (modC1, none), topPrints := "", body := fun _ => ("", none) }

def stC1 : DaemonState :=
  { fs := [("/spells/w.py", scriptC1)], sysModules := [], stdin := 0, stdout := 1,
    streams := [], nextHandle := 2, tempCounter := 0, registry := [], execLog := [] }

def stC1' : DaemonState := (load_spell_module stC1 "/spells/w.py").2

/-- C1 witness: a concrete first load succeeds; the second load returns the
same unit and state, and the execution log holds exactly one entry after the
two loads (the spec's top-level counter equals 1). -/
theorem load_cache_idempotent_witness :
    load_spell_module stC1' "/spells/w.py" = (.ok modC1, stC1') ∧
    stC1'.execLog = ["/spells/w.py"] :=
  ⟨load_spell_module_cache_idempotent stC1 stC1' "/spells/w.py" modC1 rfl, rfl⟩

/-!
## C6 — load error cases
-/

/-- C6: for every path whose file does not exist, `load_spell_module` fails
with `FileNotFoundError`; and for every existing, not-yet-cached path whose
top-level execution raises, the call fails with a load error carrying the
raised message rather than returning a unit. -/
theorem load_spell_module_error_cases (st : DaemonState) (p : String) :
    (st.fs.lookup (resolvePath p) = none →
      load_spell_module st p = (.error (.notFound (resolvePath p)), st)) ∧
    (∀ sc msg, st.fs.lookup (resolvePath p) = some sc →
      st.sysModules.lookup (moduleName (resolvePath p)) = none →
      sc.topLevel.2 = some msg →
      (load_spell_module st p).1 = .error (.loadError msg)) := by
  constructor
  · exact load_notFound_of_missing st p
  · intro sc msg hfs hcache herr
    unfold load_spell_module
    dsimp only
    rw [hfs]
    dsimp only
    rw [hcache]
    dsimp only
    rw [herr]

def scriptC6 : Script :=
  { topLevel := ({ main := none, META := none }, some "boom"),
    topPrints := "", body := fun _ => ("", none) }

def stC6 : DaemonState :=
  { fs := [("/spells/bad.py", scriptC6)], sysModules := [], stdin := 0, stdout := 1,
    streams := [], nextHandle := 2, tempCounter := 0, registry := [], execLog := [] }

/-- C6 witness: loading a missing path yields the not-found error, and loading
an existing script whose top-level raises "boom" yields the load error. -/
theorem load_spell_module_error_cases_witness :
    load_spell_module stC6 "/spells/missing.py" =
      (.error (.notFound "/spells/missing.py"), stC6) ∧
    (load_spell_module stC6 "/spells/bad.py").1 = .error (.loadError "boom") :=
  ⟨(load_spell_module_error_cases stC6 "/spells/missing.py").1 rfl,
   (load_spell_module_error_cases stC6 "/spells/bad.py").2 scriptC6 "boom" rfl rfl rfl⟩

/-!
## C10 — the existence check precedes the cache lookup
-/

/-- C10: for every path, if the file does not exist at call time then
`load_spell_module` raises `FileNotFoundError` even when a loaded unit for
that same path is already cached in `sys.modules`, so a cached unit is only
ever returned while its backing file still exists. -/
theorem load_checks_existence_before_cache (st : DaemonState) (p : String)
    (m : SpellModule)
    (_hcache : st.sysModules.lookup (moduleName (resolvePath p)) = some m)
    (hmissing : st.fs.lookup (resolvePath p) = none) :
    load_spell_module st p = (.error (.notFound (resolvePath p)), st) :=
  load_notFound_of_missing st p hmissing

def modC10 : SpellModule := { main := none, META := none }

def stC10 : DaemonState :=
  { fs := [], sysModules := [(moduleName "/spells/w.py", modC10)], stdin := 0, stdout := 1,
    streams := [], nextHandle := 2, tempCounter := 0, registry := [], execLog := [] }

/-- C10 witness: with a unit for "/spells/w.py" cached but the file absent,
the load raises the not-found error instead of returning the cached unit. -/
theorem load_checks_existence_before_cache_witness :
    load_spell_module stC10 "/spells/w.py" = (.error (.notFound "/spells/w.py"), stC10) :=
  load_checks_existence_before_cache stC10 "/spells/w.py" modC10 rfl rfl

/-!
## C7 — discovery is tolerant of malformed spells
-/

/-- C7: discovery is tolerant of malformed spells.  A script that loads but
has no well-formed metadata record (no META, or no id in its META) is skipped
without error; a script whose load raises is logged and skipped; and a
directory with one well-formed script and one script missing metadata yields a
registry of exactly one entry, keyed by the declared id (the sorted listing
processes "/spells/bad.py" before "/spells/good.py"). -/
theorem discover_spells_tolerant (st : DaemonState) :
    (∀ f mod st', load_spell_module st f = (.ok mod, st') →
      (mod.META = none ∨ ∃ meta, mod.META = some meta ∧ meta.lookup "id" = none) →
      (processSpellFile st f).registry = st.registry) ∧
    (∀ f e st', load_spell_module st f = (.error e, st') →
      (processSpellFile st f).registry = st.registry) ∧
    (∀ sg sb mg mb metag i,
      st.fs = [("/spells/bad.py", sb), ("/spells/good.py", sg)] →
      st.sysModules = [] → st.registry = [] →
      sg.topLevel = (mg, none) → sb.topLevel = (mb, none) →
      mg.META = some metag → metag.lookup "id" = some i → mb.META = none →
      (discover_spells st ["/spells/bad.py", "/spells/good.py"]).registry =
        [(i, assocSet metag "scriptFile" "/spells/good.py")]) := by
  refine ⟨?_, ?_, ?_⟩
  · intro f mod st' h hmeta
    by_cases hstem : stemOf f = "__init__"
    · simp [processSpellFile, hstem]
    · have hreg : st'.registry = st.registry := by
        have hpres := load_preserves_registry st f
        rw [h] at hpres
        exact hpres
      rcases hmeta with hnone | ⟨meta, hsome, hid⟩
      · simp [processSpellFile, hstem, h, hnone, hreg]
      · simp [processSpellFile, hstem, h, hsome, hid, hreg]
  · intro f e st' h
    by_cases hstem : stemOf f = "__init__"
    · simp [processSpellFile, hstem]
    · have hreg : st'.registry = st.registry := by
        have hpres := load_preserves_registry st f
        rw [h] at hpres
        exact hpres
      simp [processSpellFile, hstem, h, hreg]
  · intro sg sb mg mb metag i hfs hmods hreg hsg hsb hmg hid hmb
    have hb1 : (("/spells/good.py" : String) == "/spells/bad.py") = false := by decide
    have hb2 : (moduleName "/spells/good.py" == moduleName "/spells/bad.py") = false := by
      decide
    have hs1 : ¬ (stemOf "/spells/bad.py" = "__init__") := by decide
    have hs2 : ¬ (stemOf "/spells/good.py" = "__init__") := by decide
    simp [discover_spells, processSpellFile, load_spell_module, resolvePath,
      List.lookup, hfs, hmods, hreg, hsg, hsb, hmg, hid, hmb, hs1, hs2, hb1, hb2,
      assocSet]

def goodMeta : List (String × String) :=
  [("id", "word_count"), ("name", "Word Count")]

def goodModule : SpellModule := { main := none, META := some goodMeta }

def goodScript : Script :=
  { topLevel := (goodModule, none), topPrints := "", body := fun _ => ("", none) }

def badModule : SpellModule := { main := none, META := none }

def badScript : Script :=
  { topLevel := (badModule, none), topPrints := "", body := fun _ => ("", none) }

def stC7 : DaemonState :=
  { fs := [("/spells/bad.py", badScript), ("/spells/good.py", goodScript)],
    sysModules := [], stdin := 0, stdout := 1, streams := [], nextHandle := 2,
    tempCounter := 0, registry := [], execLog := [] }

/-- C7 witness: a concrete scan over one well-formed script and one script
with no metadata yields a registry holding exactly the well-formed entry. -/
theorem discover_spells_tolerant_witness :
    (discover_spells stC7 ["/spells/bad.py", "/spells/good.py"]).registry =
      [("word_count", assocSet goodMeta "scriptFile" "/spells/good.py")] :=
  (discover_spells_tolerant stC7).2.2 goodScript badScript goodModule badModule
    goodMeta "word_count" rfl rfl rfl rfl rfl rfl rfl rfl

/-!
## C8 — the critical section is NOT guarded by any lock

The daemon module creates no `threading.Lock` (no lock of any kind appears in
the source), while `cast_spell` is a synchronous endpoint that FastAPI runs on
a threadpool.  The schedule exhibited below is a genuine interleaving of two
requests' redirect/emit/restore sections, and running it corrupts the capture:
request 1's print lands in request 2's buffer, so request 1 returns output
`""` although its spell printed `"A"`, and request 2 returns `"AB"`. -/

/-- C8 evidence: an unsynchronized interleaving of two cast sections that
corrupts output capture, as computed by the model of the lines 242–266
section.  This refutes any mutual-exclusion guarantee for the section: with a
lock the two sections could not interleave at all. -/
theorem cast_sections_interleave_corrupts :
    interleaves (castSection 1 "A") (castSection 2 "B")
      [.redirect 1, .redirect 2, .emit 1 "A", .emit 2 "B", .restore 1, .restore 2] = true ∧
    (runStdout ⟨0, []⟩
      [.redirect 1, .redirect 2, .emit 1 "A", .emit 2 "B",
       .restore 1, .restore 2]).buffers.lookup 1 = some "" ∧
    (runStdout ⟨0, []⟩
      [.redirect 1, .redirect 2, .emit 1 "A", .emit 2 "B",
       .restore 1, .restore 2]).buffers.lookup 2 = some "AB" := by
  decide

end MetaKeyAI
